import Mathlib

/-!
Shallow embedding of the bde_docuseal microservice (src/main.py,
src/services/docuseal_client.py, src/services/email_service.py,
src/models/requests.py).

Outbound HTTP calls are modelled by passing the observed provider
outcome (`ApiResponse`) as an explicit argument: `timeout` stands for
`httpx.TimeoutException`, `transportError msg` for any other transport
exception with `str(e) = msg`, and `http status text body` for a
response whose status code, raw text and parsed JSON body are given.
Raised `fastapi.HTTPException`s are modelled as the `Except.error`
branch of an `Except HTTPException _` result; functions that the
Python code makes total by a catch-all `except` clause are total Lean
functions.  JSON field access `d.get(k)` on an optional field is an
`Option`; the Python list-indexing default `d.get(k, [\x7b\x7d])[0]`, which
raises `IndexError` on a present-but-empty list, is modelled by
`firstOrDefault` / `firstUrlOf` returning `Except` with the Python
exception text.
-/

/-- Model of `fastapi.HTTPException(status_code=..., detail=...)`. -/
structure HTTPException where
  status_code : Nat
  detail : String
deriving Repr, DecidableEq

/-- Python `str(e)` for a starlette/fastapi `HTTPException`:
`f"{e.status_code}: {e.detail}"`. -/
def httpExceptionStr (e : HTTPException) : String :=
  toString e.status_code ++ ": " ++ e.detail

/-- Outcome of one outbound HTTP call, as observed by the client code:
timeout, other transport error (with its `str(e)`), or a response with
status code, raw text, and parsed body `α`. -/
inductive ApiResponse (α : Type) where
  | timeout
  | transportError (msg : String)
  | http (status : Nat) (text : String) (body : α)
deriving Repr, DecidableEq

/-- One entry of the `submitters` array of a provider JSON body
(`{"email": ..., "embed_src": ...}`); absent keys are `none`. -/
structure SubmitterEntry where
  email : Option String := none
  embed_src : Option String := none
deriving Repr, DecidableEq

/-- One entry of the `documents` array (`{"url": ...}`). -/
structure DocumentEntry where
  url : Option String := none
deriving Repr, DecidableEq

/-- The `template` sub-object (`{"name": ...}`). -/
structure TemplateRef where
  name : Option String := none
deriving Repr, DecidableEq

/-- Python `result.get(key, [{}])[0]` for a list-valued key: absent key
yields the default singleton `[{}]` whose head is the empty dict; a
present empty list raises `IndexError` (text `str(IndexError(...))`). -/
def firstOrDefault (xs : Option (List SubmitterEntry)) : Except String SubmitterEntry :=
  match xs with
  | none => .ok {}
  | some [] => .error "list index out of range"
  | some (x :: _) => .ok x

/-- Same access pattern for the `documents` array. -/
def firstUrlOf (xs : Option (List DocumentEntry)) : Except String (Option String) :=
  match xs with
  | none => .ok none
  | some [] => .error "list index out of range"
  | some (x :: _) => .ok x.url

/-- `result.get("template", {}).get("name")`. -/
def templateNameOf (t : Option TemplateRef) : Option String :=
  match t with
  | none => none
  | some r => r.name

/-- Client configuration (src/services/docuseal_client.py, `__init__`):
`base_url`, `api_token`; the fixed 30s timeout is part of the transport
layer and not observable in this embedding.  An empty token only logs a
warning at construction. -/
structure DocuSealClient where
  base_url : String
  api_token : String
deriving Repr, DecidableEq

/-- Parsed JSON body used by `health_check`: the elapsed
time (ms) and the optional `X-API-Version` header. -/
structure HealthExtras where
  elapsed_ms : Nat
  api_version_header : Option String := none
deriving Repr, DecidableEq

/-- Report dict returned by `DocuSealClient.health_check`. -/
structure HealthReport where
  status : String
  response_time_ms : Option Nat := none
  api_version : Option String := none
  error : Option String := none
deriving Repr, DecidableEq

/-- src/services/docuseal_client.py lines 30-67: if the token is empty
return the not-configured error without touching the network; otherwise
GET `/api/templates`: 200 → healthy with latency and `X-API-Version`
(default "unknown"); other status → error `"HTTP {code}: {text}"`;
timeout → error "Connection timeout"; other exception → error `str(e)`. -/
def DocuSealClient.health_check (c : DocuSealClient)
    (resp : ApiResponse HealthExtras) : HealthReport :=
  if c.api_token = "" then
    { status := "error", error := some "API token not configured" }
  else
    match resp with
    | .http status text body =>
        if status = 200 then
          { status := "healthy"
            response_time_ms := some body.elapsed_ms
            api_version := some (body.api_version_header.getD "unknown") }
        else
          { status := "error", error := some ("HTTP " ++ toString status ++ ": " ++ text) }
    | .timeout => { status := "error", error := some "Connection timeout" }
    | .transportError m => { status := "error", error := some m }

/-- Parsed JSON body of a successful create-submission response:
`{"id": ..., "submitters": [...]}`. -/
structure CreateBody where
  id : Option String := none
  submitters : Option (List SubmitterEntry) := none
deriving Repr, DecidableEq

/-- Result dict of `create_submission` (both key sets merged; keys a
branch does not set are `none`). -/
structure CreateResult where
  success : Bool
  submission_id : Option String := none
  signing_url : Option String := none
  email_sent : Option Bool := none
  error : Option String := none
deriving Repr, DecidableEq

/-- src/services/docuseal_client.py lines 69-132: POST `/api/submissions`.
Status 201 → `{success: True, submission_id: result.get("id"),
signing_url: result.get("submitters", [{}])[0].get("embed_src"),
email_sent: True}` — where the submitter indexing raises `IndexError`
on a present-but-empty list, caught by the catch-all into
`{success: False, error: str(e)}`.  Other status →
`{success: False, error: "HTTP {code}: {text}"}`; timeout →
`{success: False, error: "DocuSeal API timeout"}`; other exception →
`{success: False, error: str(e)}`. -/
def DocuSealClient.create_submission (_c : DocuSealClient)
    (_template_id _customer_email _customer_name : String)
    (resp : ApiResponse CreateBody) : CreateResult :=
  match resp with
  | .http status text body =>
      if status = 201 then
        match firstOrDefault body.submitters with
        | .ok sub =>
            { success := true
              submission_id := body.id
              signing_url := sub.embed_src
              email_sent := some true }
        | .error msg => { success := false, error := some msg }
      else
        { success := false, error := some ("HTTP " ++ toString status ++ ": " ++ text) }
  | .timeout => { success := false, error := some "DocuSeal API timeout" }
  | .transportError m => { success := false, error := some m }

/-- Parsed JSON body of a submission read:
`{"status": ..., "completed_at": ..., "documents": [...],
"submitters": [...], "template": {...}}`. -/
structure SubmissionBody where
  status : Option String := none
  completed_at : Option String := none
  documents : Option (List DocumentEntry) := none
  submitters : Option (List SubmitterEntry) := none
  template : Option TemplateRef := none
deriving Repr, DecidableEq

/-- Normalized fields returned by `get_submission_status` on success. -/
structure StatusFields where
  status : Option String := none
  completed_at : Option String := none
  document_url : Option String := none
  signer_email : Option String := none
  template_name : Option String := none
deriving Repr, DecidableEq

/-- src/services/docuseal_client.py lines 134-165: GET
`/api/submissions/{id}`.  200 → extract the normalized fields, where
`result.get("documents", [{}])[0]` / `result.get("submitters", [{}])[0]`
raise `IndexError` on present-but-empty lists, turned by the catch-all
into `HTTPException(500, "DocuSeal error: " + str(e))` (the `documents`
access is evaluated first).  Non-200 →
`HTTPException(status, "DocuSeal API error: " + text)`; timeout →
`HTTPException(504, "DocuSeal API timeout")`; other exception →
`HTTPException(500, "DocuSeal error: " + str(e))`. -/
def DocuSealClient.get_submission_status (_c : DocuSealClient)
    (_submission_id : String) (resp : ApiResponse SubmissionBody) :
    Except HTTPException StatusFields :=
  match resp with
  | .http status text body =>
      if status = 200 then
        match firstUrlOf body.documents with
        | .error msg => .error ⟨500, "DocuSeal error: " ++ msg⟩
        | .ok docUrl =>
            match firstOrDefault body.submitters with
            | .error msg => .error ⟨500, "DocuSeal error: " ++ msg⟩
            | .ok sub =>
                .ok { status := body.status
                      completed_at := body.completed_at
                      document_url := docUrl
                      signer_email := sub.email
                      template_name := templateNameOf body.template }
      else
        .error ⟨status, "DocuSeal API error: " ++ text⟩
  | .timeout => .error ⟨504, "DocuSeal API timeout"⟩
  | .transportError m => .error ⟨500, "DocuSeal error: " ++ m⟩

/-- Parsed content of the document fetch inside `download_document`:
raw bytes and the optional `content-type` header. -/
structure DocContent where
  content : List Nat
  content_type_header : Option String := none
deriving Repr, DecidableEq

/-- Descriptor returned by a successful `download_document`. -/
structure DownloadData where
  download_url : String
  filename : String
  size_bytes : Nat
  content_type : String
deriving Repr, DecidableEq

/-- src/services/docuseal_client.py lines 167-199: resolve the
submission status first (any raised fault is caught by the catch-all
into `None`); return `None` unless the status is exactly "completed";
`if not document_url` treats both an absent and an empty URL as
unavailable; then fetch the document URL: only a 200 yields the
descriptor `{download_url, filename: f"document_{id}.pdf",
size_bytes: len(content), content_type: headers.get("content-type",
"application/pdf")}`, every other outcome collapses to `None`. -/
def DocuSealClient.download_document (c : DocuSealClient)
    (submission_id : String) (statusResp : ApiResponse SubmissionBody)
    (docResp : ApiResponse DocContent) : Option DownloadData :=
  match c.get_submission_status submission_id statusResp with
  | .error _ => none
  | .ok st =>
      if st.status ≠ some "completed" then none
      else
        match st.document_url with
        | none => none
        | some document_url =>
            if document_url = "" then none
            else
              match docResp with
              | .http status _ body =>
                  if status = 200 then
                    some { download_url := document_url
                           filename := "document_" ++ submission_id ++ ".pdf"
                           size_bytes := body.content.length
                           content_type := body.content_type_header.getD "application/pdf" }
                  else none
              | .timeout => none
              | .transportError _ => none

/-- src/services/docuseal_client.py lines 232-249: GET
`/api/templates/{id}`; 200 → the JSON body (kept opaque here), any
other outcome → `None`. -/
def DocuSealClient.get_template (_c : DocuSealClient)
    (_template_id : String) (resp : ApiResponse String) : Option String :=
  match resp with
  | .http status _ body => if status = 200 then some body else none
  | .timeout => none
  | .transportError _ => none

/-- Notifier configuration (src/services/email_service.py, `__init__`). -/
structure EmailService where
  smtp_host : String
  smtp_port : Nat
  smtp_username : String
  smtp_password : String
  from_email : String
deriving Repr, DecidableEq

/-- Outcome of one SMTP session (connect, STARTTLS, login, and send when
a message is given): `ok`, or `exn msg` for any exception with
`str(e) = msg`. -/
inductive SmtpOutcome where
  | ok
  | exn (msg : String)
deriving Repr, DecidableEq

/-- Report dict returned by `EmailService.test_connection`. -/
structure SmtpReport where
  status : String
  smtp_host : Option String := none
  smtp_port : Option Nat := none
  error : Option String := none
deriving Repr, DecidableEq

/-- src/services/email_service.py lines 33-52: open an SMTP session,
STARTTLS, login; success → healthy report with host/port, any
exception → error report with `str(e)`. -/
def EmailService.test_connection (svc : EmailService) (o : SmtpOutcome) : SmtpReport :=
  match o with
  | .ok =>
      { status := "healthy"
        smtp_host := some svc.smtp_host
        smtp_port := some svc.smtp_port }
  | .exn m => { status := "error", error := some m }

/-- A composed MIME multipart/alternative message (`_send_email` builds
the Subject, From and To headers and attaches the plain-text
and HTML parts). -/
structure EmailMessage where
  subject : String
  msg_from : String
  msg_to : String
  text_body : String
  html_body : String
deriving Repr, DecidableEq

/-- src/services/email_service.py lines 232-266, `_send_email`: compose
and transmit over one SMTP session; any exception is caught and
collapsed to `false`. -/
def EmailService.send_email_impl (_svc : EmailService) (o : SmtpOutcome)
    (_msg : EmailMessage) : Bool :=
  match o with
  | .ok => true
  | .exn _ => false

/-- src/services/email_service.py line 63: completion subject. -/
def completionSubject : String := "✅ Document Signing Completed - BDE Energy"

/-- Completion HTML template (lines 65-112) up to the
`{submission_id}` splice. -/
def completionHtml1 : String := "\n            <html>\n            <body style=\"font-family: Arial, sans-serif; line-height: 1.6; color: #333;\">\n                <div style=\"max-width: 600px; margin: 0 auto; padding: 20px;\">\n                    <div style=\"background: linear-gradient(135deg, #667eea 0%, #764ba2 100%); color: white; padding: 30px; border-radius: 10px 10px 0 0; text-align: center;\">\n                        <h1 style=\"margin: 0; font-size: 24px;\">✅ Document Signing Completed</h1>\n                        <p style=\"margin: 10px 0 0 0; opacity: 0.9;\">Better Day Energy</p>\n                    </div>\n                    \n                    <div style=\"background: #f8f9fa; padding: 30px; border-radius: 0 0 10px 10px; border: 1px solid #e9ecef;\">\n                        <h2 style=\"color: #495057; margin-top: 0;\">Great News!</h2>\n                        \n                        <p>Your document has been successfully signed and completed.</p>\n                        \n                        <div style=\"background: white; padding: 20px; border-radius: 8px; border-left: 4px solid #28a745; margin: 20px 0;\">\n                            <h3 style=\"margin: 0 0 10px 0; color: #28a745;\">Document Details:</h3>\n                            <p style=\"margin: 5px 0;\"><strong>Submission ID:</strong> "

/-- Completion HTML between the `{submission_id}` splice and the
timestamp splice. -/
def completionHtml2 : String := "</p>\n                            <p style=\"margin: 5px 0;\"><strong>Completed At:</strong> "

/-- Completion HTML between the timestamp splice and the conditional
download-link splice. -/
def completionHtml3 : String := "</p>\n                            <p style=\"margin: 5px 0;\"><strong>Status:</strong> <span style=\"color: #28a745; font-weight: bold;\">Completed</span></p>\n                        </div>\n                        \n                        "

/-- The inner f-string of lines 86-93: the download action block,
spliced in only when `document_url` is truthy. -/
def completionHtmlLink (document_url : String) : String := "\n                        <div style=\"text-align: center; margin: 30px 0;\">\n                            <a href=\"" ++ document_url ++ "\" \n                               style=\"background: #007bff; color: white; padding: 12px 24px; text-decoration: none; border-radius: 6px; font-weight: bold; display: inline-block;\">\n                                📄 Download Signed Document\n                            </a>\n                        </div>\n                        "

/-- Completion HTML after the conditional download-link splice. -/
def completionHtml4 : String := "\n                        \n                        <div style=\"background: #e7f3ff; padding: 15px; border-radius: 6px; margin: 20px 0;\">\n                            <p style=\"margin: 0; font-size: 14px;\">\n                                <strong>Next Steps:</strong> Your signed document is now complete. \n                                A copy has been securely stored and our team will process your request shortly.\n                            </p>\n                        </div>\n                        \n                        <hr style=\"border: none; border-top: 1px solid #dee2e6; margin: 30px 0;\">\n                        \n                        <p style=\"margin: 0; font-size: 12px; color: #6c757d; text-align: center;\">\n                            This email was sent by Better Day Energy\u0027s automated document system.<br>\n                            If you have questions, please contact our support team.\n                        </p>\n                    </div>\n                </div>\n            </body>\n            </html>\n            "

/-- The composed completion HTML body: `now` is the value of
`datetime.utcnow().strftime(...)` (format `%B %d, %Y at %I:%M %p UTC`) at send time;
the Python truthiness test `if document_url` is `none`/`some` here
(the endpoint only ever passes `None` or a non-empty URL). -/
def completionHtmlBody (submission_id now : String) (document_url : Option String) : String :=
  completionHtml1 ++ submission_id ++ completionHtml2 ++ now ++ completionHtml3 ++
    (match document_url with
     | some u => completionHtmlLink u
     | none => "") ++ completionHtml4

/-- Completion plain-text template (lines 114-131) up to the
`{submission_id}` splice. -/
def completionText1 : String := "\n            Document Signing Completed - Better Day Energy\n            \n            Great News! Your document has been successfully signed and completed.\n            \n            Document Details:\n            - Submission ID: "

/-- Completion text between the `{submission_id}` splice and the
timestamp splice. -/
def completionText2 : String := "\n            - Completed At: "

/-- Completion text between the timestamp splice and the conditional
`"Download: " + document_url` splice. -/
def completionText3 : String := "\n            - Status: Completed\n            \n            "

/-- Completion text after the conditional download splice. -/
def completionText4 : String := "\n            \n            Next Steps: Your signed document is now complete. A copy has been securely stored \n            and our team will process your request shortly.\n            \n            This email was sent by Better Day Energy\u0027s automated document system.\n            If you have questions, please contact our support team.\n            "

/-- The composed completion plain-text body. -/
def completionTextBody (submission_id now : String) (document_url : Option String) : String :=
  completionText1 ++ submission_id ++ completionText2 ++ now ++ completionText3 ++
    (match document_url with
     | some u => "Download: " ++ u
     | none => "") ++ completionText4

/-- src/services/email_service.py lines 54-142: compose the completion
message and hand it to `_send_email`; the composed parts depend on the
submission id, the send-time timestamp and the optional document URL. -/
def EmailService.send_completion_email (svc : EmailService) (o : SmtpOutcome)
    (recipient_email submission_id now : String)
    (document_url : Option String) : Bool :=
  svc.send_email_impl o
    { subject := completionSubject
      msg_from := svc.from_email
      msg_to := recipient_email
      text_body := completionTextBody submission_id now document_url
      html_body := completionHtmlBody submission_id now document_url }

/-- src/services/email_service.py line 154: reminder subject. -/
def reminderSubject : String := "⏰ Reminder: Document Signing Pending - BDE Energy"

/-- Reminder HTML template (lines 156-200) up to the first
`{days_pending}` splice. -/
def reminderHtml1 : String := "\n            <html>\n            <body style=\"font-family: Arial, sans-serif; line-height: 1.6; color: #333;\">\n                <div style=\"max-width: 600px; margin: 0 auto; padding: 20px;\">\n                    <div style=\"background: linear-gradient(135deg, #ffecd2 0%, #fcb69f 100%); color: #333; padding: 30px; border-radius: 10px 10px 0 0; text-align: center;\">\n                        <h1 style=\"margin: 0; font-size: 24px;\">⏰ Document Signing Reminder</h1>\n                        <p style=\"margin: 10px 0 0 0; opacity: 0.8;\">Better Day Energy</p>\n                    </div>\n                    \n                    <div style=\"background: #f8f9fa; padding: 30px; border-radius: 0 0 10px 10px; border: 1px solid #e9ecef;\">\n                        <h2 style=\"color: #495057; margin-top: 0;\">Action Required</h2>\n                        \n                        <p>You have a document waiting for your signature. This document has been pending for <strong>"

/-- Reminder HTML between the first `{days_pending}` splice and the
`{submission_id}` splice. -/
def reminderHtml2 : String := " days</strong>.</p>\n                        \n                        <div style=\"background: white; padding: 20px; border-radius: 8px; border-left: 4px solid #ffc107; margin: 20px 0;\">\n                            <h3 style=\"margin: 0 0 10px 0; color: #ffc107;\">Document Details:</h3>\n                            <p style=\"margin: 5px 0;\"><strong>Submission ID:</strong> "

/-- Reminder HTML between the `{submission_id}` splice and the second
`{days_pending}` splice. -/
def reminderHtml3 : String := "</p>\n                            <p style=\"margin: 5px 0;\"><strong>Days Pending:</strong> "

/-- Reminder HTML between the second `{days_pending}` splice and the
`{signing_url}` splice. -/
def reminderHtml4 : String := "</p>\n                            <p style=\"margin: 5px 0;\"><strong>Status:</strong> <span style=\"color: #ffc107; font-weight: bold;\">Waiting for Signature</span></p>\n                        </div>\n                        \n                        <div style=\"text-align: center; margin: 30px 0;\">\n                            <a href=\""

/-- Reminder HTML after the `{signing_url}` splice. -/
def reminderHtml5 : String := "\" \n                               style=\"background: #28a745; color: white; padding: 15px 30px; text-decoration: none; border-radius: 6px; font-weight: bold; display: inline-block; font-size: 16px;\">\n                                🖊️ Sign Document Now\n                            </a>\n                        </div>\n                        \n                        <div style=\"background: #fff3cd; padding: 15px; border-radius: 6px; margin: 20px 0; border: 1px solid #ffeaa7;\">\n                            <p style=\"margin: 0; font-size: 14px;\">\n                                <strong>Important:</strong> Please complete the signing process to avoid delays in processing your request.\n                            </p>\n                        </div>\n                        \n                        <hr style=\"border: none; border-top: 1px solid #dee2e6; margin: 30px 0;\">\n                        \n                        <p style=\"margin: 0; font-size: 12px; color: #6c757d; text-align: center;\">\n                            This reminder was sent by Better Day Energy\u0027s automated document system.<br>\n                            If you have questions, please contact our support team.\n                        </p>\n                    </div>\n                </div>\n            </body>\n            </html>\n            "

/-- The composed reminder HTML body; `days_pending` is the Python int,
rendered with `str`. -/
def reminderHtmlBody (submission_id signing_url : String) (days_pending : Int) : String :=
  reminderHtml1 ++ toString days_pending ++ reminderHtml2 ++ submission_id ++
    reminderHtml3 ++ toString days_pending ++ reminderHtml4 ++ signing_url ++ reminderHtml5

/-- Reminder plain-text template (lines 202-219) up to the first
`{days_pending}` splice. -/
def reminderText1 : String := "\n            Document Signing Reminder - Better Day Energy\n            \n            Action Required: You have a document waiting for your signature.\n            This document has been pending for "

/-- Reminder text between the first `{days_pending}` splice and the
`{submission_id}` splice. -/
def reminderText2 : String := " days.\n            \n            Document Details:\n            - Submission ID: "

/-- Reminder text between the `{submission_id}` splice and the second
`{days_pending}` splice. -/
def reminderText3 : String := "\n            - Days Pending: "

/-- Reminder text between the second `{days_pending}` splice and the
`{signing_url}` splice. -/
def reminderText4 : String := "\n            - Status: Waiting for Signature\n            \n            Sign Document: "

/-- Reminder text after the `{signing_url}` splice. -/
def reminderText5 : String := "\n            \n            Important: Please complete the signing process to avoid delays in processing your request.\n            \n            This reminder was sent by Better Day Energy\u0027s automated document system.\n            If you have questions, please contact our support team.\n            "

/-- The composed reminder plain-text body. -/
def reminderTextBody (submission_id signing_url : String) (days_pending : Int) : String :=
  reminderText1 ++ toString days_pending ++ reminderText2 ++ submission_id ++
    reminderText3 ++ toString days_pending ++ reminderText4 ++ signing_url ++ reminderText5

/-- src/services/email_service.py lines 144-230: compose the reminder
message and hand it to `_send_email`. -/
def EmailService.send_reminder_email (svc : EmailService) (o : SmtpOutcome)
    (recipient_email submission_id signing_url : String)
    (days_pending : Int) : Bool :=
  svc.send_email_impl o
    { subject := reminderSubject
      msg_from := svc.from_email
      msg_to := recipient_email
      text_body := reminderTextBody submission_id signing_url days_pending
      html_body := reminderHtmlBody submission_id signing_url days_pending }

namespace Main

/-- Webhook payload model (src/models/requests.py,
`WebhookEventRequest`). -/
structure WebhookEventRequest where
  event_type : String
  submission_id : String
  submitter_email : Option String := none
  document_url : Option String := none
  timestamp : Option String := none
deriving Repr, DecidableEq

/-- One `background_tasks.add_task(send_completion_notification, ...)`
call: the arguments handed to the detached notification task. -/
structure NotificationTask where
  submission_id : String
  submitter_email : Option String
deriving Repr, DecidableEq

/-- The acknowledgement body returned by the webhook endpoint. -/
structure WebhookAck where
  status : String
deriving Repr, DecidableEq

/-- src/main.py lines 185-216, `handle_docuseal_webhook`: on
"form.completed" schedule one background notification task carrying the
submission id and submitter email; "form.viewed" and "form.started"
only log; any other tag falls through; in all cases return
`{"status": "processed"}`.  Scheduling is modelled by returning the
list of `add_task` calls next to the response: the response value is
produced without running any scheduled task. -/
def handle_docuseal_webhook (w : WebhookEventRequest) :
    List NotificationTask × WebhookAck :=
  let tasks :=
    if w.event_type = "form.completed" then
      [{ submission_id := w.submission_id, submitter_email := w.submitter_email }]
    else if w.event_type = "form.viewed" then
      []
    else if w.event_type = "form.started" then
      []
    else
      []
  (tasks, { status := "processed" })

/-- Response body of the status endpoint. -/
structure StatusResponse where
  submission_id : String
  status : Option String
  completed_at : Option String
  document_url : Option String
  signer_email : Option String
deriving Repr, DecidableEq

/-- src/main.py lines 141-158, `get_document_status`: call the client
status read inside `try`; on success reshape the fields.  A raised
`HTTPException` is an `Exception`, so the catch-all intercepts the
fault raised by `get_submission_status` and re-raises
`HTTPException(500, "Failed to get status: " + str(e))`. -/
def get_document_status (c : DocuSealClient) (submission_id : String)
    (resp : ApiResponse SubmissionBody) : Except HTTPException StatusResponse :=
  match c.get_submission_status submission_id resp with
  | .ok st =>
      .ok { submission_id := submission_id
            status := st.status
            completed_at := st.completed_at
            document_url := st.document_url
            signer_email := st.signer_email }
  | .error e => .error ⟨500, "Failed to get status: " ++ httpExceptionStr e⟩

/-- Response body of the download endpoint. -/
structure DownloadResponse where
  submission_id : String
  download_url : String
  filename : String
  size_bytes : Nat
deriving Repr, DecidableEq

/-- The `try` block of src/main.py lines 160-179: a `None` client
result raises `HTTPException(404, "Document not found or not
completed")`; otherwise reshape the descriptor. -/
def download_document_try (c : DocuSealClient) (submission_id : String)
    (statusResp : ApiResponse SubmissionBody) (docResp : ApiResponse DocContent) :
    Except HTTPException DownloadResponse :=
  match c.download_document submission_id statusResp docResp with
  | none => .error ⟨404, "Document not found or not completed"⟩
  | some d =>
      .ok { submission_id := submission_id
            download_url := d.download_url
            filename := d.filename
            size_bytes := d.size_bytes }

/-- src/main.py lines 160-179, `download_document`: the catch-all
around the `try` block intercepts the 404 it itself raised (an
`HTTPException` is an `Exception`) and re-raises
`HTTPException(500, "Failed to download: " + str(e))`. -/
def download_document (c : DocuSealClient) (submission_id : String)
    (statusResp : ApiResponse SubmissionBody) (docResp : ApiResponse DocContent) :
    Except HTTPException DownloadResponse :=
  match download_document_try c submission_id statusResp docResp with
  | .ok r => .ok r
  | .error e => .error ⟨500, "Failed to download: " ++ httpExceptionStr e⟩

/-- The `try` block of src/main.py lines 238-254: a falsy (`None`)
client result raises `HTTPException(404, "Template not found")`. -/
def get_template_details_try (c : DocuSealClient) (template_id : String)
    (resp : ApiResponse String) : Except HTTPException String :=
  match c.get_template template_id resp with
  | none => .error ⟨404, "Template not found"⟩
  | some t => .ok t

/-- src/main.py lines 238-254, `get_template_details`: the catch-all
intercepts the 404 raised inside its own `try` block and re-raises
`HTTPException(500, "Failed to get template: " + str(e))`. -/
def get_template_details (c : DocuSealClient) (template_id : String)
    (resp : ApiResponse String) : Except HTTPException String :=
  match get_template_details_try c template_id resp with
  | .ok t => .ok t
  | .error e => .error ⟨500, "Failed to get template: " ++ httpExceptionStr e⟩

/-- Response body of the aggregated health endpoint. -/
structure GatewayHealthResponse where
  status : String
  docuseal : HealthReport
  email : SmtpReport
  timestamp : String
deriving Repr, DecidableEq

/-- src/main.py lines 80-100, `health_check`: run the provider probe
and the mail probe and aggregate — "healthy" when
`all([docuseal_status.get("status") == "healthy",
email_status.get("status") == "healthy"])`, else "degraded". -/
def health_check (c : DocuSealClient) (svc : EmailService)
    (dresp : ApiResponse HealthExtras) (so : SmtpOutcome) (now : String) :
    GatewayHealthResponse :=
  let docuseal_status := c.health_check dresp
  let email_status := svc.test_connection so
  { status :=
      if docuseal_status.status = "healthy" ∧ email_status.status = "healthy" then
        "healthy"
      else
        "degraded"
    docuseal := docuseal_status
    email := email_status
    timestamp := now }

end Main

/-- `pat` occurs as a contiguous substring of `s`. -/
def containsStr (s pat : String) : Prop := ∃ a b : String, s = a ++ (pat ++ b)

/-- C1.  The claim says a provider fault surfaced by
`get_submission_status` reaches the caller of the status endpoint with
the upstream status code (timeout → 504, non-success → the provider
status).  The code does the opposite: the catch-all in
`get_document_status` intercepts the raised `HTTPException` and
re-raises a generic 500, so a provider timeout and a provider 422 both
reach the caller as status 500. -/
theorem get_document_status_masks_upstream_code :
    (Main.get_document_status ⟨"https://docuseal.co", "tok"⟩ "sub_1" .timeout
       = .error ⟨500, "Failed to get status: 504: DocuSeal API timeout"⟩) ∧
    (Main.get_document_status ⟨"https://docuseal.co", "tok"⟩ "sub_1"
         (.http 422 "unprocessable" {})
       = .error ⟨500, "Failed to get status: 422: DocuSeal API error: unprocessable"⟩) :=
  ⟨rfl, rfl⟩

/-- C2.  The claim says a null client result makes the download and
single-template endpoints answer 404.  In the code both 404s are raised
inside the endpoint's own `try` block, so the catch-all converts them
to 500: a pending submission's download and a missing template both
surface as status 500, not 404. -/
theorem null_lookups_surface_as_500 :
    (Main.download_document ⟨"https://docuseal.co", "tok"⟩ "sub_1"
         (.http 200 "" { status := some "pending" }) .timeout
       = .error ⟨500, "Failed to download: 404: Document not found or not completed"⟩) ∧
    (Main.get_template_details ⟨"https://docuseal.co", "tok"⟩ "tmpl_1"
         (.http 404 "missing" "")
       = .error ⟨500, "Failed to get template: 404: Template not found"⟩) :=
  ⟨rfl, rfl⟩

/-- C3.  For every webhook event the handler returns the
`{status: "processed"}` acknowledgement, computed without running any
scheduled task; a "form.completed" event schedules exactly one
background notification task carrying the submission id and submitter
email; "form.viewed" and "form.started" schedule none. -/
theorem handle_docuseal_webhook_dispatch (w : Main.WebhookEventRequest) :
    (Main.handle_docuseal_webhook w).2 = { status := "processed" } ∧
    (w.event_type = "form.completed" →
      (Main.handle_docuseal_webhook w).1
        = [{ submission_id := w.submission_id, submitter_email := w.submitter_email }]) ∧
    (w.event_type = "form.viewed" ∨ w.event_type = "form.started" →
      (Main.handle_docuseal_webhook w).1 = []) := by
  refine ⟨rfl, ?_, ?_⟩
  · intro h
    simp [Main.handle_docuseal_webhook, h]
  · intro h
    rcases h with h | h <;> simp [Main.handle_docuseal_webhook, h]

/-- Witness for C3: concrete completed, viewed and unknown events. -/
theorem handle_docuseal_webhook_dispatch_witness :
    (Main.handle_docuseal_webhook ⟨"form.completed", "sub_1", some "a@b.com", none, none⟩).1
        = [{ submission_id := "sub_1", submitter_email := some "a@b.com" }] ∧
    (Main.handle_docuseal_webhook ⟨"form.viewed", "sub_2", none, none, none⟩).1 = [] ∧
    (Main.handle_docuseal_webhook ⟨"form.unknown", "sub_3", none, none, none⟩).2
        = { status := "processed" } :=
  ⟨(handle_docuseal_webhook_dispatch _).2.1 rfl,
   (handle_docuseal_webhook_dispatch _).2.2 (Or.inl rfl),
   (handle_docuseal_webhook_dispatch _).1⟩

/-- Counterexample for C4: an HTTP 201 body whose `submitters` list is
present but empty does not yield a success result — the first-submitter
indexing raises `IndexError` and the catch-all returns a failure. -/
theorem create_submission_201_empty_submitters_fails :
    (DocuSealClient.create_submission ⟨"https://docuseal.co", "tok"⟩
        "tmpl_1" "a@b.com" "A B"
        (.http 201 "" { id := some "sub_9", submitters := some [] })).success
      = false :=
  rfl

/-- C4 (amended: excluding a present-but-empty `submitters` list, which
fails per C4's counterexample).  On an HTTP 201 response the result is
a success whose submission identifier is the body's `id` and whose
signing URL is the first submitter entry's `embed_src` — absent when
the `submitters` key is absent; and the spec's concrete scenario holds. -/
theorem create_submission_201_success_fields (c : DocuSealClient)
    (tid cem cnm text : String) (body : CreateBody)
    (hsub : body.submitters ≠ some []) :
    (c.create_submission tid cem cnm (.http 201 text body)).success = true ∧
    (c.create_submission tid cem cnm (.http 201 text body)).submission_id = body.id ∧
    (c.create_submission tid cem cnm (.http 201 text body)).signing_url
      = (match body.submitters with
         | none => none
         | some [] => none
         | some (s :: _) => s.embed_src) ∧
    c.create_submission "tmpl_1" "a@b.com" "A B"
        (.http 201 "" { id := some "sub_9"
                        submitters := some [{ embed_src := some "https://x/9" }] })
      = { success := true
          submission_id := some "sub_9"
          signing_url := some "https://x/9"
          email_sent := some true } := by
  refine ⟨?_, ?_, ?_, rfl⟩ <;>
    rcases h : body.submitters with _ | ⟨_ | ⟨s, l⟩⟩ <;>
      first
        | (exact absurd h hsub)
        | simp [DocuSealClient.create_submission, firstOrDefault, h]

/-- Witness for C4: the amended theorem applied to the spec's scenario
input, whose `submitters` list is non-empty. -/
theorem create_submission_201_success_fields_witness :
    (DocuSealClient.create_submission ⟨"https://docuseal.co", "tok"⟩
        "tmpl_1" "a@b.com" "A B"
        (.http 201 "" { id := some "sub_9"
                        submitters := some [{ embed_src := some "https://x/9" }] })).success
      = true :=
  (create_submission_201_success_fields ⟨"https://docuseal.co", "tok"⟩
    "tmpl_1" "a@b.com" "A B" ""
    { id := some "sub_9", submitters := some [{ embed_src := some "https://x/9" }] }
    (by simp)).1

/-- C5.  `create_submission` never raises (it is a total function into
`CreateResult`); every non-success status yields `success = false` with
the error string `"HTTP {code}: {text}"`, which contains the provider's
status code; a timeout and a transport error also yield
`success = false` with a human-readable error string. -/
theorem create_submission_failure_paths (c : DocuSealClient)
    (tid cem cnm : String) (status : Nat) (text : String) (body : CreateBody)
    (m : String) (hne : status ≠ 201) :
    (c.create_submission tid cem cnm (.http status text body)).success = false ∧
    (c.create_submission tid cem cnm (.http status text body)).error
      = some ("HTTP " ++ toString status ++ ": " ++ text) ∧
    containsStr ("HTTP " ++ toString status ++ ": " ++ text) (toString status) ∧
    (c.create_submission tid cem cnm .timeout).success = false ∧
    (c.create_submission tid cem cnm .timeout).error = some "DocuSeal API timeout" ∧
    (c.create_submission tid cem cnm (.transportError m)).success = false ∧
    (c.create_submission tid cem cnm (.transportError m)).error = some m := by
  refine ⟨?_, ?_, ⟨"HTTP ", ": " ++ text, by simp [String.append_assoc]⟩,
    rfl, rfl, rfl, rfl⟩ <;>
    simp [DocuSealClient.create_submission, hne]

/-- Witness for C5: a concrete provider 503 response. -/
theorem create_submission_failure_paths_witness :
    (DocuSealClient.create_submission ⟨"https://docuseal.co", "tok"⟩
        "tmpl_1" "a@b.com" "A B" (.http 503 "unavailable" {})).error
      = some "HTTP 503: unavailable" :=
  (create_submission_failure_paths ⟨"https://docuseal.co", "tok"⟩
    "tmpl_1" "a@b.com" "A B" 503 "unavailable" {} "" (by decide)).2.1

/-- Counterexample for C6: with an empty API token, only `health_check`
reports the not-configured condition.  `get_submission_status` still
performs its call and raises the provider fault (here a 401), and
`create_submission` returns the provider's error string, not a
not-configured report. -/
theorem empty_token_operations_not_gated :
    (DocuSealClient.get_submission_status ⟨"https://docuseal.co", ""⟩ "sub_1"
        (.http 401 "Unauthorized" {})
      = .error ⟨401, "DocuSeal API error: Unauthorized"⟩) ∧
    ((DocuSealClient.create_submission ⟨"https://docuseal.co", ""⟩
        "tmpl_1" "a@b.com" "A B" (.http 401 "Unauthorized" {})).error
      = some "HTTP 401: Unauthorized") ∧
    ("HTTP 401: Unauthorized" ≠ "API token not configured") :=
  ⟨rfl, rfl, by decide⟩

/-- C6 (amended: restricted to `health_check`, the only operation that
checks the token).  A client constructed with an empty API token
reports status "error" with the "not configured" reason from
`health_check`, and the report is independent of whatever the provider
would answer — no network observation enters the result. -/
theorem health_check_empty_token (base : String)
    (r₁ r₂ : ApiResponse HealthExtras) :
    DocuSealClient.health_check ⟨base, ""⟩ r₁
      = { status := "error", error := some "API token not configured" } ∧
    DocuSealClient.health_check ⟨base, ""⟩ r₁
      = DocuSealClient.health_check ⟨base, ""⟩ r₂ := by
  constructor <;> simp [DocuSealClient.health_check]

/-- C7.  The aggregated gateway health status is "healthy" exactly when
both the provider probe report and the mail probe report are "healthy",
and it is always one of "healthy"/"degraded" — the aggregation is a
total function of the two sub-reports and never faults. -/
theorem gateway_health_aggregation (c : DocuSealClient) (svc : EmailService)
    (dresp : ApiResponse HealthExtras) (so : SmtpOutcome) (now : String) :
    ((Main.health_check c svc dresp so now).status = "healthy" ↔
      ((c.health_check dresp).status = "healthy" ∧
       (svc.test_connection so).status = "healthy")) ∧
    ((Main.health_check c svc dresp so now).status = "healthy" ∨
     (Main.health_check c svc dresp so now).status = "degraded") := by
  by_cases h : (c.health_check dresp).status = "healthy" ∧
      (svc.test_connection so).status = "healthy" <;>
    simp [Main.health_check, h]

/-- Witness for C7: both probes healthy at a concrete input gives
aggregate "healthy". -/
theorem gateway_health_aggregation_witness :
    (Main.health_check ⟨"https://docuseal.co", "tok"⟩
        ⟨"smtp.gmail.com", 587, "u", "p", "f@g.com"⟩
        (.http 200 "" ⟨12, none⟩) .ok "2024-01-15T10:30:00").status
      = "healthy" :=
  (gateway_health_aggregation ⟨"https://docuseal.co", "tok"⟩
      ⟨"smtp.gmail.com", 587, "u", "p", "f@g.com"⟩
      (.http 200 "" ⟨12, none⟩) .ok "2024-01-15T10:30:00").1.mpr ⟨rfl, rfl⟩

/-- C8.  `download_document` is a total function into an `Option` (it
never raises): the result is `none` whenever the status fetch faults,
or the resolved status is not "completed", or the status is "completed"
but the document URL is absent (or empty, which the truthiness test
also treats as absent), or the document fetch times out, fails in
transport, or answers non-200.  On the success path the descriptor has
the synthesized filename `document_<id>.pdf`, the byte length of the
fetched content as its size, and the content-type header when present. -/
theorem download_document_availability (c : DocuSealClient) (sid : String)
    (sResp : ApiResponse SubmissionBody) (dResp : ApiResponse DocContent) :
    (∀ e, c.get_submission_status sid sResp = .error e →
      c.download_document sid sResp dResp = none) ∧
    (∀ st, c.get_submission_status sid sResp = .ok st →
      st.status ≠ some "completed" → c.download_document sid sResp dResp = none) ∧
    (∀ st, c.get_submission_status sid sResp = .ok st →
      st.document_url = none → c.download_document sid sResp dResp = none) ∧
    (∀ st, c.get_submission_status sid sResp = .ok st →
      st.document_url = some "" → c.download_document sid sResp dResp = none) ∧
    (c.download_document sid sResp .timeout = none) ∧
    (∀ m, c.download_document sid sResp (.transportError m) = none) ∧
    (∀ code dtext dc, code ≠ 200 →
      c.download_document sid sResp (.http code dtext dc) = none) ∧
    (∀ st u dtext dc, c.get_submission_status sid sResp = .ok st →
      st.status = some "completed" → st.document_url = some u → u ≠ "" →
      c.download_document sid sResp (.http 200 dtext dc)
        = some { download_url := u
                 filename := "document_" ++ sid ++ ".pdf"
                 size_bytes := dc.content.length
                 content_type := dc.content_type_header.getD "application/pdf" }) ∧
    (∀ st u dtext dc t, c.get_submission_status sid sResp = .ok st →
      st.status = some "completed" → st.document_url = some u → u ≠ "" →
      dc.content_type_header = some t →
      ∃ d, c.download_document sid sResp (.http 200 dtext dc) = some d ∧
        d.content_type = t) := by
  have fetchNone : ∀ dr : ApiResponse DocContent,
      (∀ code dtext dc, dr = .http code dtext dc → code ≠ 200) →
      c.download_document sid sResp dr = none := by
    intro dr hdr
    unfold DocuSealClient.download_document
    rcases c.get_submission_status sid sResp with e | st
    · rfl
    · by_cases hs : st.status ≠ some "completed"
      · simp [hs]
      · rcases hu : st.document_url with _ | u
        · simp [hs, hu]
        · by_cases hu0 : u = ""
          · simp [hs, hu, hu0]
          · rcases dr with _ | m | ⟨code, dtext, dc⟩
            · simp [hs, hu, hu0]
            · simp [hs, hu, hu0]
            · simp [hs, hu, hu0, hdr code dtext dc rfl]
  refine ⟨?_, ?_, ?_, ?_, ?_, ?_, ?_, ?_, ?_⟩
  · intro e he
    simp [DocuSealClient.download_document, he]
  · intro st hok hs
    simp [DocuSealClient.download_document, hok, hs]
  · intro st hok hu
    by_cases hs : st.status ≠ some "completed" <;>
      simp [DocuSealClient.download_document, hok, hs, hu]
  · intro st hok hu
    by_cases hs : st.status ≠ some "completed" <;>
      simp [DocuSealClient.download_document, hok, hs, hu]
  · exact fetchNone .timeout (by intro _ _ _ h; cases h)
  · intro m
    exact fetchNone (.transportError m) (by intro _ _ _ h; cases h)
  · intro code dtext dc hcode
    exact fetchNone (.http code dtext dc)
      (by intro _ _ _ h; cases h; exact hcode)
  · intro st u dtext dc hok hs hu hu0
    simp [DocuSealClient.download_document, hok, hs, hu, hu0]
  · intro st u dtext dc t hok hs hu hu0 hct
    refine ⟨{ download_url := u
              filename := "document_" ++ sid ++ ".pdf"
              size_bytes := dc.content.length
              content_type := dc.content_type_header.getD "application/pdf" }, ?_, ?_⟩
    · simp [DocuSealClient.download_document, hok, hs, hu, hu0]
    · simp [hct]

/-- Witness for C8: a completed submission with a document URL and a
200 fetch with a content-type header yields the synthesized
descriptor. -/
theorem download_document_availability_witness :
    DocuSealClient.download_document ⟨"https://docuseal.co", "tok"⟩ "sub_1"
        (.http 200 "" { status := some "completed"
                        documents := some [{ url := some "https://x/doc.pdf" }]
                        submitters := some [{ email := some "a@b.com" }] })
        (.http 200 "" { content := [37, 80, 68, 70]
                        content_type_header := some "application/pdf" })
      = some { download_url := "https://x/doc.pdf"
               filename := "document_" ++ "sub_1" ++ ".pdf"
               size_bytes := 4
               content_type := "application/pdf" } :=
  (download_document_availability ⟨"https://docuseal.co", "tok"⟩ "sub_1"
      (.http 200 "" { status := some "completed"
                      documents := some [{ url := some "https://x/doc.pdf" }]
                      submitters := some [{ email := some "a@b.com" }] })
      (.http 200 "" { content := [37, 80, 68, 70]
                      content_type_header := some "application/pdf" })).2.2.2.2.2.2.2.1
    _ "https://x/doc.pdf" "" _ rfl rfl rfl (by decide)

/-- C9.  The completion message composed without a document URL still
contains the submission id and the send-time timestamp in both its
plain-text and HTML parts, and is exactly the with-URL composition with
the download action block removed (the block around
"Download: {url}" / the `completionHtmlLink` anchor); the reminder
message always contains the signing URL and the days-pending count in
both parts. -/
theorem email_composition_bodies (sid now surl : String) (days : Int) :
    containsStr (completionTextBody sid now none) sid ∧
    containsStr (completionTextBody sid now none) now ∧
    containsStr (completionHtmlBody sid now none) sid ∧
    containsStr (completionHtmlBody sid now none) now ∧
    (∃ A B : String, completionTextBody sid now none = A ++ B ∧
      ∀ u, completionTextBody sid now (some u) = A ++ (("Download: " ++ u) ++ B)) ∧
    (∃ A B : String, completionHtmlBody sid now none = A ++ B ∧
      ∀ u, completionHtmlBody sid now (some u) = A ++ (completionHtmlLink u ++ B)) ∧
    containsStr (reminderTextBody sid surl days) surl ∧
    containsStr (reminderTextBody sid surl days) (toString days) ∧
    containsStr (reminderHtmlBody sid surl days) surl ∧
    containsStr (reminderHtmlBody sid surl days) (toString days) := by
  refine ⟨⟨completionText1,
            completionText2 ++ (now ++ (completionText3 ++ completionText4)), ?_⟩,
          ⟨completionText1 ++ (sid ++ completionText2),
            completionText3 ++ completionText4, ?_⟩,
          ⟨completionHtml1,
            completionHtml2 ++ (now ++ (completionHtml3 ++ completionHtml4)), ?_⟩,
          ⟨completionHtml1 ++ (sid ++ completionHtml2),
            completionHtml3 ++ completionHtml4, ?_⟩,
          ⟨completionText1 ++ (sid ++ (completionText2 ++ (now ++ completionText3))),
            completionText4, ?_, ?_⟩,
          ⟨completionHtml1 ++ (sid ++ (completionHtml2 ++ (now ++ completionHtml3))),
            completionHtml4, ?_, ?_⟩,
          ⟨reminderText1 ++ (toString days ++ (reminderText2 ++ (sid ++
              (reminderText3 ++ (toString days ++ reminderText4))))),
            reminderText5, ?_⟩,
          ⟨reminderText1,
            reminderText2 ++ (sid ++ (reminderText3 ++ (toString days ++
              (reminderText4 ++ (surl ++ reminderText5))))), ?_⟩,
          ⟨reminderHtml1 ++ (toString days ++ (reminderHtml2 ++ (sid ++
              (reminderHtml3 ++ (toString days ++ reminderHtml4))))),
            reminderHtml5, ?_⟩,
          ⟨reminderHtml1,
            reminderHtml2 ++ (sid ++ (reminderHtml3 ++ (toString days ++
              (reminderHtml4 ++ (surl ++ reminderHtml5))))), ?_⟩⟩ <;>
    simp [completionTextBody, completionHtmlBody, reminderTextBody,
      reminderHtmlBody, String.append_assoc, String.append_empty]

/-- C10.  The first-element indexing on a present-but-empty array is
not total: an HTTP 201 create response whose `submitters` is `[]`
yields `success = false` with the `IndexError` text (instead of a
success with an absent signing URL), and an HTTP 200 status response
whose `documents` or `submitters` is `[]` makes
`get_submission_status` raise a 500 fault (instead of returning fields
with absent values). -/
theorem present_empty_lists_break_totality (c : DocuSealClient)
    (tid cem cnm sid text : String) (cbody : CreateBody) (sbody : SubmissionBody)
    (hc : cbody.submitters = some [])
    (hs : sbody.documents = some [] ∨ sbody.submitters = some []) :
    (c.create_submission tid cem cnm (.http 201 text cbody)).success = false ∧
    (c.create_submission tid cem cnm (.http 201 text cbody)).error
      = some "list index out of range" ∧
    c.get_submission_status sid (.http 200 text sbody)
      = .error ⟨500, "DocuSeal error: list index out of range"⟩ := by
  refine ⟨?_, ?_, ?_⟩
  · simp [DocuSealClient.create_submission, firstOrDefault, hc]
  · simp [DocuSealClient.create_submission, firstOrDefault, hc]
  · rcases hs with hs | hs
    · simp [DocuSealClient.get_submission_status, firstUrlOf, hs]
    · rcases hd : sbody.documents with _ | ⟨_ | ⟨d, ds⟩⟩ <;>
        simp [DocuSealClient.get_submission_status, firstUrlOf, firstOrDefault,
          hs, hd]

/-- Witness for C10: concrete 201/200 bodies with present-but-empty
arrays. -/
theorem present_empty_lists_break_totality_witness :
    (DocuSealClient.create_submission ⟨"https://docuseal.co", "tok"⟩
        "tmpl_1" "a@b.com" "A B"
        (.http 201 "" { id := some "sub_9", submitters := some [] })).error
      = some "list index out of range" ∧
    DocuSealClient.get_submission_status ⟨"https://docuseal.co", "tok"⟩ "sub_1"
        (.http 200 "" { documents := some [] })
      = .error ⟨500, "DocuSeal error: list index out of range"⟩ :=
  ⟨(present_empty_lists_break_totality ⟨"https://docuseal.co", "tok"⟩
      "tmpl_1" "a@b.com" "A B" "sub_1" ""
      { id := some "sub_9", submitters := some [] } { documents := some [] }
      rfl (Or.inl rfl)).2.1,
   (present_empty_lists_break_totality ⟨"https://docuseal.co", "tok"⟩
      "tmpl_1" "a@b.com" "A B" "sub_1" ""
      { id := some "sub_9", submitters := some [] } { documents := some [] }
      rfl (Or.inl rfl)).2.2⟩
